import Mathlib

/-!
Shallow embedding of the auth service in src/main.py.

The service keeps a single SQLite table `users`; we model the table as a
list of rows (`List Account`).  Each HTTP handler becomes a pure function
from the table state and the request data (plus the outcome of any external
Stripe call, passed in as an explicit argument) to the HTTP response and
the new table state.  External calls (stripe.Customer.create,
stripe.Subscription.retrieve, stripe.Webhook.construct_event) are modelled
by arguments recording their outcome, since their implementations are not
part of this repository.
-/

/-- One row of the `users` table (src/main.py, init_db, lines 27-42).
Columns and defaults follow the CREATE TABLE statement: plan defaults to
"trial", max_workers to 1; stripe_subscription_id is nullable. -/
structure Account where
  email : String
  api_key : String
  stripe_customer_id : Option String
  stripe_subscription_id : Option String
  plan : String
  expires_at : Int
  max_workers : Int
  created_at : Int
deriving Repr, DecidableEq

/-- Python truthiness of an optional string: None and the empty string are
falsy; every other string is truthy. -/
def truthy : Option String → Bool
  | none => false
  | some s => !(s == "")

/-- SELECT ... FROM users WHERE email = e (first matching row). -/
def findByEmail (db : List Account) (e : String) : Option Account :=
  db.find? (fun a => a.email == e)

/-- SELECT ... FROM users WHERE api_key = k (first matching row). -/
def findByApiKey (db : List Account) (k : String) : Option Account :=
  db.find? (fun a => a.api_key == k)

/-- Response of the /auth/register handler, as the fields of the jsonify
calls in lines 55-95.  `crashed` records that the handler raised an
uncaught Python exception, so no JSON body was produced at all. -/
structure RegisterResponse where
  status : Nat
  api_key : Option String := none
  plan : Option String := none
  trial_ends : Option Int := none
  existing_user : Bool := false
  error : Option String := none
  crashed : Bool := false
deriving Repr, DecidableEq

/-- Outcome of the external call stripe.Customer.create (line 64). -/
inductive CustomerCreate where
  | ok (customer_id : String)
  | err (msg : String)
deriving Repr, DecidableEq

/-- Trial length: timedelta(days=7), in seconds (line 59). -/
def trialLength : Int := 7 * 24 * 60 * 60

/-- The row inserted by register (lines 70-74): only email, api_key,
stripe_customer_id and expires_at are supplied; plan and max_workers take
their schema defaults "trial" and 1; stripe_subscription_id is NULL. -/
def newAccount (e k cid : String) (expires now : Int) : Account :=
  { email := e, api_key := k, stripe_customer_id := some cid
    stripe_subscription_id := none, plan := "trial"
    expires_at := expires, max_workers := 1, created_at := now }

/-- The INSERT of lines 70-74: fails with IntegrityError (returns none)
when the email primary key or the unique api_key already exists. -/
def insertUser (db : List Account) (e k cid : String) (expires now : Int) :
    Option (List Account) :=
  if db.any (fun a => a.email == e) || db.any (fun a => a.api_key == k) then
    none
  else
    some (db ++ [newAccount e k cid expires now])

/-- The /auth/register handler (src/main.py, lines 51-97).  `tok` is the
random token from secrets.token_urlsafe(32); the issued key is "mk_"
followed by it (line 58).  On a StripeError the except clause at line 95
evaluates a string plus the exception object, which raises TypeError in
Python 3, so the handler crashes without producing the intended JSON body;
Flask then serves a generic 500 page with no processor message in it. -/
def register (db : List Account) (email : Option String) (tok : String)
    (now : Int) (stripeCall : CustomerCreate) : RegisterResponse × List Account :=
  if !(truthy email) then
    ({ status := 400, error := some "Email required" }, db)
  else
    let e := email.getD ""
    let k := "mk_" ++ tok
    let expires := now + trialLength
    match stripeCall with
    | .err _ => ({ status := 500, crashed := true }, db)
    | .ok cid =>
        match insertUser db e k cid expires now with
        | some db2 =>
            ({ status := 200, api_key := some k, plan := some "trial"
               trial_ends := some expires }, db2)
        | none =>
            match findByEmail db e with
            | some u =>
                ({ status := 200, api_key := some u.api_key
                   plan := some u.plan, existing_user := true }, db)
            | none =>
                -- IntegrityError caused by an api_key collision on a fresh
                -- email: fetchone() returns None and user[0] raises
                -- TypeError, so the handler crashes.
                ({ status := 500, crashed := true }, db)

/-- Response of the /auth/verify handler, as the fields of the jsonify
calls in lines 99-155. -/
structure VerifyResponse where
  status : Nat
  valid : Bool
  plan : Option String := none
  max_workers : Option Int := none
  email : Option String := none
  error : Option String := none
  subscription_expired : Bool := false
  trial_expired : Bool := false
deriving Repr, DecidableEq

/-- Outcome of the external call stripe.Subscription.retrieve (line 122):
either the subscription with its status string, or a StripeError. -/
inductive SubRetrieve where
  | ok (st : String)
  | err
deriving Repr, DecidableEq

/-- UPDATE users SET plan = p, max_workers = w WHERE api_key = k
(lines 126-129): every matching row is rewritten. -/
def updateByApiKey (db : List Account) (k : String) (p : String) (w : Int) :
    List Account :=
  db.map (fun a =>
    if a.api_key == k then { a with plan := p, max_workers := w } else a)

/-- Lines 141-155 of verify: the trial-expiry check on the cached row,
then the cached entitlement. -/
def verifyTail (u : Account) (db : List Account) (now : Int) :
    VerifyResponse × List Account :=
  if u.plan == "trial" && decide (u.expires_at < now) then
    ({ status := 200, valid := true, plan := some "trial_expired"
       max_workers := some 1, trial_expired := true }, db)
  else
    ({ status := 200, valid := true, plan := some u.plan
       max_workers := some u.max_workers, email := some u.email }, db)

/-- The /auth/verify handler (src/main.py, lines 99-155). -/
def verify (db : List Account) (apiKey : Option String) (now : Int)
    (subCall : SubRetrieve) : VerifyResponse × List Account :=
  if !(truthy apiKey) then
    ({ status := 401, valid := false, error := some "No API key provided" }, db)
  else
    let k := apiKey.getD ""
    match findByApiKey db k with
    | none =>
        ({ status := 401, valid := false, error := some "Invalid API key" }, db)
    | some u =>
        if truthy u.stripe_subscription_id then
          match subCall with
          | .ok st =>
              if st != "active" then
                ({ status := 200, valid := true, plan := some "free"
                   max_workers := some 1, subscription_expired := true },
                 updateByApiKey db k "free" 1)
              else verifyTail u db now
          | .err => verifyTail u db now
        else verifyTail u db now

/-- A Stripe webhook event after successful signature verification,
carrying exactly the fields the handler reads (lines 246-295). -/
inductive WebhookEvent where
  | checkoutCompleted (metadata_api_key : Option String) (subscription : Option String)
  | subscriptionUpdated (st : String) (id : String)
  | subscriptionDeleted (id : String)
  | otherEvent (t : String)
deriving Repr, DecidableEq

/-- Response of the /billing/webhook handler (lines 242 and 298). -/
structure WebhookResponse where
  status : Nat
  received : Bool := false
  error : Option String := none
deriving Repr, DecidableEq

/-- The row update of the checkout-completed branch (lines 253-258):
plan pro, 8 workers, and the subscription id from the session. -/
def applyCheckout (sub : Option String) (a : Account) : Account :=
  { a with plan := "pro", max_workers := 8, stripe_subscription_id := sub }

/-- The row update of the subscription-deleted branch (lines 289-294):
plan free, 1 worker, subscription id set to NULL. -/
def applyDeleted (a : Account) : Account :=
  { a with plan := "free", max_workers := 1, stripe_subscription_id := none }

/-- The /billing/webhook handler (src/main.py, lines 231-298).
`ev` is the outcome of stripe.Webhook.construct_event on the raw payload,
signature header and shared secret: none when it raises (missing,
malformed or mismatching signature), some event when verification
succeeds. -/
def webhook (db : List Account) (ev : Option WebhookEvent) :
    WebhookResponse × List Account :=
  match ev with
  | none => ({ status := 400, error := some "Invalid signature" }, db)
  | some (.checkoutCompleted mk sub) =>
      if truthy mk then
        ({ status := 200, received := true },
         db.map (fun a =>
           if a.api_key == mk.getD "" then applyCheckout sub a else a))
      else ({ status := 200, received := true }, db)
  | some (.subscriptionUpdated st sid) =>
      if st == "active" then
        ({ status := 200, received := true },
         db.map (fun a =>
           if a.stripe_subscription_id == some sid then
             { a with plan := "pro", max_workers := 8 }
           else a))
      else if st == "canceled" || st == "unpaid" then
        ({ status := 200, received := true },
         db.map (fun a =>
           if a.stripe_subscription_id == some sid then
             { a with plan := "free", max_workers := 1 }
           else a))
      else ({ status := 200, received := true }, db)
  | some (.subscriptionDeleted sid) =>
      ({ status := 200, received := true },
       db.map (fun a =>
         if a.stripe_subscription_id == some sid then applyDeleted a else a))
  | some (.otherEvent _) => ({ status := 200, received := true }, db)

/-- Does the Stripe subscription check of lines 120-139 report an inactive
subscription?  True exactly when the row has a (truthy) subscription id,
the retrieve succeeds, and the returned status is not "active". -/
def subCheckReportsInactive (u : Account) (s : SubRetrieve) : Bool :=
  if truthy u.stripe_subscription_id then
    match s with
    | .ok st => st != "active"
    | .err => false
  else false

/-! ### Concrete rows used to instantiate the claims on explicit inputs -/

/-- Row used only to instantiate claim C4. -/
def c4row : Account :=
  { email := "c4@example.com", api_key := "mk_c4", stripe_customer_id := some "cus_c4"
    stripe_subscription_id := some "sub_c4", plan := "pro"
    expires_at := 0, max_workers := 8, created_at := 0 }

/-- Row used only to instantiate claim C3: a trial account past expiry. -/
def c3row : Account :=
  { email := "c3@example.com", api_key := "mk_c3", stripe_customer_id := some "cus_c3"
    stripe_subscription_id := none, plan := "trial"
    expires_at := 10, max_workers := 1, created_at := 0 }

/-- Row used only to instantiate claim C5: a pro account with a live
subscription id. -/
def c5row : Account :=
  { email := "c5@example.com", api_key := "mk_c5", stripe_customer_id := some "cus_c5"
    stripe_subscription_id := some "sub_c5", plan := "pro"
    expires_at := 0, max_workers := 8, created_at := 0 }

/-- Row used only to instantiate claim C8: a pro account with a stored
subscription id. -/
def c8row : Account :=
  { email := "c8@example.com", api_key := "mk_c8", stripe_customer_id := some "cus_c8"
    stripe_subscription_id := some "sub_c8", plan := "pro"
    expires_at := 1000, max_workers := 8, created_at := 0 }

/-- Row used only to instantiate claim C9. -/
def c9row : Account :=
  { email := "c9@example.com", api_key := "mk_c9", stripe_customer_id := some "cus_c9"
    stripe_subscription_id := some "sub_c9", plan := "pro"
    expires_at := 0, max_workers := 8, created_at := 0 }

/-- The invariant of claim C9: every row of the table has either 1 or 8
max_workers. -/
def WorkersOK (db : List Account) : Prop :=
  ∀ a ∈ db, a.max_workers = 1 ∨ a.max_workers = 8

/-! ### Helper lemmas shared by the claim theorems -/

/-- (verifyTail u db now).2 is always the unchanged table. -/
theorem verifyTail_snd (u : Account) (db : List Account) (now : Int) :
    (verifyTail u db now).2 = db := by
  unfold verifyTail
  split <;> rfl

/-- find? over a list whose any-test is false returns none. -/
theorem find?_none_of_any_false {α : Type} (p : α → Bool) (l : List α)
    (h : l.any p = false) : l.find? p = none := by
  rw [List.find?_eq_none]
  intro x hx
  rw [List.any_eq_false] at h
  exact h x hx

/-! ### Claim theorems -/

/-- Claim C1: a webhook request whose payload fails signature verification
(stripe.Webhook.construct_event raises, i.e. the event argument is none)
is answered with a 400 rejection and the users table is unchanged. -/
theorem webhook_invalid_signature_rejected (db : List Account) :
    webhook db none = ({ status := 400, error := some "Invalid signature" }, db) :=
  rfl

/-- Claim C10: a verified checkout.session.completed event whose session
metadata carries no api_key performs no table update and is still
acknowledged with the received response. -/
theorem webhook_checkout_without_api_key_noop
    (db : List Account) (sub : Option String) :
    webhook db (some (.checkoutCompleted none sub)) =
      ({ status := 200, received := true }, db) :=
  rfl

/-- Claim C7: on a register request for a fresh email where
stripe.Customer.create raises a StripeError, the handler crashes with an
uncaught TypeError (line 95 adds a string and the exception object), so
the client gets a bare 500 without the processor message in the body, and
no account row is created.  This refutes the claimed message passthrough
while confirming the 500 and the absence of a new row. -/
theorem register_processor_error_crashes
    (db : List Account) (e tok msg : String) (now : Int)
    (he : ¬ e = "") :
    register db (some e) tok now (.err msg) =
      ({ status := 500, crashed := true }, db) := by
  simp [register, truthy, he]

/-- Concrete run of register_processor_error_crashes: the failing input of
claim C7. -/
theorem register_processor_error_crashes_witness :
    register [] (some "new@example.com") "tok1" 0 (.err "card declined") =
      ({ status := 500, crashed := true }, []) :=
  register_processor_error_crashes [] "new@example.com" "tok1" "card declined" 0
    (by decide)

/-- Claim C4: after a verified customer.subscription.deleted event, every
account whose stored subscription id equals the event id ends with plan
free, max_workers 1 and a cleared subscription id, whatever its prior
plan was. -/
theorem webhook_subscription_deleted_downgrades
    (db : List Account) (sid : String) (a : Account)
    (ha : a ∈ db) (hmatch : a.stripe_subscription_id = some sid) :
    ∃ b ∈ (webhook db (some (.subscriptionDeleted sid))).2,
      b.email = a.email ∧ b.api_key = a.api_key ∧ b.plan = "free" ∧
      b.max_workers = 1 ∧ b.stripe_subscription_id = none := by
  refine ⟨applyDeleted a, ?_, rfl, rfl, rfl, rfl, rfl⟩
  have hmem := List.mem_map_of_mem
    (fun x => if x.stripe_subscription_id == some sid then applyDeleted x else x) ha
  simpa [webhook, hmatch] using hmem

/-- Concrete instance of webhook_subscription_deleted_downgrades. -/
theorem webhook_subscription_deleted_downgrades_witness :
    ∃ b ∈ (webhook [c4row] (some (.subscriptionDeleted "sub_c4"))).2,
      b.email = c4row.email ∧ b.api_key = c4row.api_key ∧ b.plan = "free" ∧
      b.max_workers = 1 ∧ b.stripe_subscription_id = none :=
  webhook_subscription_deleted_downgrades [c4row] "sub_c4" c4row
    (List.mem_singleton.2 rfl) rfl

/-- Claim C3: for a stored trial account whose expiry lies strictly before
the current time, and whose subscription check (if any) does not report an
inactive subscription, verify answers plan trial_expired with max_workers
1 and leaves the table, hence the stored plan, untouched. -/
theorem verify_trial_expired_frame
    (db : List Account) (k : String) (now : Int) (subCall : SubRetrieve)
    (u : Account)
    (hk : ¬ k = "")
    (hfind : findByApiKey db k = some u)
    (hplan : u.plan = "trial")
    (hexp : u.expires_at < now)
    (hsub : subCheckReportsInactive u subCall = false) :
    (verify db (some k) now subCall).1.plan = some "trial_expired" ∧
    (verify db (some k) now subCall).1.max_workers = some 1 ∧
    (verify db (some k) now subCall).2 = db := by
  have hout : truthy (some k) = true := by simp [truthy, hk]
  have hv : verify db (some k) now subCall = verifyTail u db now := by
    unfold verify
    rw [hout]
    simp only [Bool.not_true, Option.getD_some, hfind]
    cases hts : truthy u.stripe_subscription_id with
    | false => simp [hts]
    | true =>
        simp only [subCheckReportsInactive, hts] at hsub
        cases subCall with
        | err => simp [hts]
        | ok st =>
            simp only [if_true] at hsub
            have hst : st = "active" := by simpa using hsub
            simp [hts, hst]
  have htail : verifyTail u db now =
      ({ status := 200, valid := true, plan := some "trial_expired"
         max_workers := some 1, trial_expired := true }, db) := by
    unfold verifyTail
    simp [hplan, hexp]
  rw [hv, htail]
  exact ⟨rfl, rfl, rfl⟩

/-- Concrete instance of verify_trial_expired_frame. -/
theorem verify_trial_expired_frame_witness :
    (verify [c3row] (some "mk_c3") 100 .err).1.plan = some "trial_expired" ∧
    (verify [c3row] (some "mk_c3") 100 .err).1.max_workers = some 1 ∧
    (verify [c3row] (some "mk_c3") 100 .err).2 = [c3row] :=
  verify_trial_expired_frame [c3row] "mk_c3" 100 .err c3row
    (by decide) rfl rfl (by decide) rfl

/-- Claim C6: a verify request whose X-API-Key header is absent, or is a
key held by no stored account, is answered with 401, an invalid result,
and the table is unchanged. -/
theorem verify_unknown_key_unauthorized
    (db : List Account) (k : Option String) (now : Int) (subCall : SubRetrieve)
    (h : k = none ∨ ∀ a ∈ db, ¬ some a.api_key = k) :
    (verify db k now subCall).1.status = 401 ∧
    (verify db k now subCall).1.valid = false ∧
    (verify db k now subCall).2 = db := by
  rcases h with rfl | h
  · exact ⟨rfl, rfl, rfl⟩
  · cases k with
    | none => exact ⟨rfl, rfl, rfl⟩
    | some s =>
        by_cases hs : s = ""
        · subst hs
          exact ⟨rfl, rfl, rfl⟩
        · have hfind : findByApiKey db s = none := by
            unfold findByApiKey
            rw [List.find?_eq_none]
            intro a ha hbeq
            exact h a ha (by rw [beq_iff_eq] at hbeq; rw [hbeq])
          unfold verify
          simp [truthy, hs, hfind]

/-- Concrete instance of verify_unknown_key_unauthorized. -/
theorem verify_unknown_key_unauthorized_witness :
    (verify [] (some "mk_unknown") 0 .err).1.status = 401 ∧
    (verify [] (some "mk_unknown") 0 .err).1.valid = false ∧
    (verify [] (some "mk_unknown") 0 .err).2 = [] :=
  verify_unknown_key_unauthorized [] (some "mk_unknown") 0 .err
    (Or.inr (by intro a ha; cases ha))

/-- Claim C8: on an account with a stored subscription id, when the
stripe.Subscription.retrieve call fails, verify does not fail hard: the
table is unchanged and the response is the cached entitlement, with the
trial-expiry check still applied. -/
theorem verify_stripe_failure_fallback
    (db : List Account) (k : String) (now : Int) (u : Account)
    (hk : ¬ k = "")
    (hfind : findByApiKey db k = some u)
    (hsub : truthy u.stripe_subscription_id = true) :
    (verify db (some k) now .err).2 = db ∧
    ((u.plan = "trial" ∧ u.expires_at < now) →
      (verify db (some k) now .err).1.plan = some "trial_expired" ∧
      (verify db (some k) now .err).1.max_workers = some 1) ∧
    (¬ (u.plan = "trial" ∧ u.expires_at < now) →
      (verify db (some k) now .err).1.plan = some u.plan ∧
      (verify db (some k) now .err).1.max_workers = some u.max_workers) := by
  have hv : verify db (some k) now .err = verifyTail u db now := by
    unfold verify
    simp [truthy, hk, hfind, hsub]
  rw [hv]
  refine ⟨verifyTail_snd u db now, ?_, ?_⟩
  · rintro ⟨h1, h2⟩
    unfold verifyTail
    simp [h1, h2]
  · intro hc
    unfold verifyTail
    by_cases h1 : u.plan = "trial"
    · have h2 : ¬ u.expires_at < now := fun h2 => hc ⟨h1, h2⟩
      simp [h1, h2]
    · simp [h1]

/-- Concrete instance of verify_stripe_failure_fallback. -/
theorem verify_stripe_failure_fallback_witness :
    (verify [c8row] (some "mk_c8") 0 .err).2 = [c8row] ∧
    ((c8row.plan = "trial" ∧ c8row.expires_at < 0) →
      (verify [c8row] (some "mk_c8") 0 .err).1.plan = some "trial_expired" ∧
      (verify [c8row] (some "mk_c8") 0 .err).1.max_workers = some 1) ∧
    (¬ (c8row.plan = "trial" ∧ c8row.expires_at < 0) →
      (verify [c8row] (some "mk_c8") 0 .err).1.plan = some c8row.plan ∧
      (verify [c8row] (some "mk_c8") 0 .err).1.max_workers = some c8row.max_workers) :=
  verify_stripe_failure_fallback [c8row] "mk_c8" 0 c8row (by decide) rfl rfl

/-- Claim C5, counterexample: "past_due" is not "active", the stored row
matches the event subscription id, yet the verified
customer.subscription.updated event leaves the table unchanged with the
row still at plan pro and max_workers 8 --- the handler only downgrades
for the statuses "canceled" and "unpaid", not for every non-active
status. -/
theorem webhook_subscription_updated_claim_counterexample :
    ¬ ("past_due" = "active") ∧
    c5row.stripe_subscription_id = some "sub_c5" ∧
    (webhook [c5row] (some (.subscriptionUpdated "past_due" "sub_c5"))).2 =
      [c5row] ∧
    ¬ (c5row.plan = "free" ∧ c5row.max_workers = 1) := by
  decide

/-- Claim C5 as amended: on a verified customer.subscription.updated
event, a matching account is set to pro with 8 workers when the status is
"active", to free with 1 worker when the status is "canceled" or
"unpaid", and for any other status the table is left unchanged. -/
theorem webhook_subscription_updated_transitions
    (db : List Account) (sid st : String) (a : Account)
    (ha : a ∈ db) (hmatch : a.stripe_subscription_id = some sid) :
    (st = "active" →
      ∃ b ∈ (webhook db (some (.subscriptionUpdated st sid))).2,
        b.email = a.email ∧ b.api_key = a.api_key ∧ b.plan = "pro" ∧
        b.max_workers = 8) ∧
    ((st = "canceled" ∨ st = "unpaid") →
      ∃ b ∈ (webhook db (some (.subscriptionUpdated st sid))).2,
        b.email = a.email ∧ b.api_key = a.api_key ∧ b.plan = "free" ∧
        b.max_workers = 1) ∧
    ((¬ st = "active" ∧ ¬ st = "canceled" ∧ ¬ st = "unpaid") →
      (webhook db (some (.subscriptionUpdated st sid))).2 = db) := by
  refine ⟨?_, ?_, ?_⟩
  · rintro rfl
    refine ⟨{ a with plan := "pro", max_workers := 8 }, ?_, rfl, rfl, rfl, rfl⟩
    have hmem := List.mem_map_of_mem
      (fun x => if x.stripe_subscription_id == some sid then
        { x with plan := "pro", max_workers := 8 } else x) ha
    simpa [webhook, hmatch] using hmem
  · intro hst
    refine ⟨{ a with plan := "free", max_workers := 1 }, ?_, rfl, rfl, rfl, rfl⟩
    have hmem := List.mem_map_of_mem
      (fun x => if x.stripe_subscription_id == some sid then
        { x with plan := "free", max_workers := 1 } else x) ha
    rcases hst with rfl | rfl <;> simpa [webhook, hmatch] using hmem
  · rintro ⟨h1, h2, h3⟩
    simp [webhook, h1, h2, h3]

/-- Concrete instance of webhook_subscription_updated_transitions, at the
status "active". -/
theorem webhook_subscription_updated_transitions_witness :
    ("active" = "active" →
      ∃ b ∈ (webhook [c5row] (some (.subscriptionUpdated "active" "sub_c5"))).2,
        b.email = c5row.email ∧ b.api_key = c5row.api_key ∧ b.plan = "pro" ∧
        b.max_workers = 8) ∧
    (("active" = "canceled" ∨ "active" = "unpaid") →
      ∃ b ∈ (webhook [c5row] (some (.subscriptionUpdated "active" "sub_c5"))).2,
        b.email = c5row.email ∧ b.api_key = c5row.api_key ∧ b.plan = "free" ∧
        b.max_workers = 1) ∧
    ((¬ "active" = "active" ∧ ¬ "active" = "canceled" ∧
        ¬ "active" = "unpaid") →
      (webhook [c5row] (some (.subscriptionUpdated "active" "sub_c5"))).2 =
        [c5row]) :=
  webhook_subscription_updated_transitions [c5row] "sub_c5" "active" c5row
    (List.mem_singleton.2 rfl) rfl

/-- Claim C2: registering an email that already has an account returns the
api_key stored at the first registration, flags the caller as an existing
user, and leaves the table exactly as the first registration left it. -/
theorem register_idempotent_per_email
    (db : List Account) (e tok1 tok2 cid1 cid2 : String) (now1 now2 : Int)
    (he : ¬ e = "")
    (hmail : db.any (fun a => a.email == e) = false)
    (hkey : db.any (fun a => a.api_key == "mk_" ++ tok1) = false) :
    (register db (some e) tok1 now1 (.ok cid1)).1.api_key =
        some ("mk_" ++ tok1) ∧
    (register (register db (some e) tok1 now1 (.ok cid1)).2 (some e) tok2 now2
        (.ok cid2)).1.api_key = some ("mk_" ++ tok1) ∧
    (register (register db (some e) tok1 now1 (.ok cid1)).2 (some e) tok2 now2
        (.ok cid2)).1.existing_user = true ∧
    (register (register db (some e) tok1 now1 (.ok cid1)).2 (some e) tok2 now2
        (.ok cid2)).2 = (register db (some e) tok1 now1 (.ok cid1)).2 := by
  have hout : truthy (some e) = true := by simp [truthy, he]
  have hins1 : insertUser db e ("mk_" ++ tok1) cid1 (now1 + trialLength) now1 =
      some (db ++
        [newAccount e ("mk_" ++ tok1) cid1 (now1 + trialLength) now1]) := by
    unfold insertUser
    simp [hmail, hkey]
  have h1 : register db (some e) tok1 now1 (.ok cid1) =
      ({ status := 200, api_key := some ("mk_" ++ tok1), plan := some "trial"
         trial_ends := some (now1 + trialLength) },
       db ++ [newAccount e ("mk_" ++ tok1) cid1 (now1 + trialLength) now1]) := by
    unfold register
    rw [hout]
    simp only [Bool.not_true, Bool.false_eq_true, if_false, Option.getD_some,
      hins1]
  have hany2 : (db ++
      [newAccount e ("mk_" ++ tok1) cid1 (now1 + trialLength) now1]).any
        (fun a => a.email == e) = true := by
    rw [List.any_append]
    simp [newAccount]
  have hins2 : insertUser
      (db ++ [newAccount e ("mk_" ++ tok1) cid1 (now1 + trialLength) now1]) e
      ("mk_" ++ tok2) cid2 (now2 + trialLength) now2 = none := by
    unfold insertUser
    simp [hany2]
  have hfind2 : findByEmail
      (db ++ [newAccount e ("mk_" ++ tok1) cid1 (now1 + trialLength) now1]) e =
      some (newAccount e ("mk_" ++ tok1) cid1 (now1 + trialLength) now1) := by
    unfold findByEmail
    rw [List.find?_append, find?_none_of_any_false _ _ hmail]
    simp [newAccount]
  have h2 : register
      (db ++ [newAccount e ("mk_" ++ tok1) cid1 (now1 + trialLength) now1])
      (some e) tok2 now2 (.ok cid2) =
      ({ status := 200, api_key := some ("mk_" ++ tok1), plan := some "trial"
         existing_user := true },
       db ++ [newAccount e ("mk_" ++ tok1) cid1 (now1 + trialLength) now1]) := by
    unfold register
    rw [hout]
    simp only [Bool.not_true, Bool.false_eq_true, if_false, Option.getD_some,
      hins2, hfind2]
    rfl
  rw [h1]
  rw [h2]
  exact ⟨rfl, rfl, rfl, rfl⟩

/-- Concrete instance of register_idempotent_per_email. -/
theorem register_idempotent_per_email_witness :
    (register [] (some "a@b.example") "t1" 0 (.ok "cus_a")).1.api_key =
        some ("mk_" ++ "t1") ∧
    (register (register [] (some "a@b.example") "t1" 0 (.ok "cus_a")).2
        (some "a@b.example") "t2" 5 (.ok "cus_b")).1.api_key =
        some ("mk_" ++ "t1") ∧
    (register (register [] (some "a@b.example") "t1" 0 (.ok "cus_a")).2
        (some "a@b.example") "t2" 5 (.ok "cus_b")).1.existing_user = true ∧
    (register (register [] (some "a@b.example") "t1" 0 (.ok "cus_a")).2
        (some "a@b.example") "t2" 5 (.ok "cus_b")).2 =
      (register [] (some "a@b.example") "t1" 0 (.ok "cus_a")).2 :=
  register_idempotent_per_email [] "a@b.example" "t1" "t2" "cus_a" "cus_b" 0 5
    (by decide) rfl rfl

/-- Mapping a row transform whose images all have 1 or 8 workers keeps
the invariant. -/
theorem workersOK_map (db : List Account) (f : Account → Account)
    (h : ∀ a ∈ db, (f a).max_workers = 1 ∨ (f a).max_workers = 8) :
    WorkersOK (db.map f) := by
  intro b hb
  rcases List.mem_map.1 hb with ⟨a, ha, rfl⟩
  exact h a ha

/-- register preserves the workers invariant: its only writes are the
fresh row, whose max_workers defaults to 1. -/
theorem register_workersOK (db : List Account) (email : Option String)
    (tok : String) (now : Int) (sc : CustomerCreate) (h : WorkersOK db) :
    WorkersOK (register db email tok now sc).2 := by
  cases hout : truthy email with
  | false => simpa [register, hout] using h
  | true =>
      cases sc with
      | err m => simpa [register, hout] using h
      | ok cid =>
          cases hins : insertUser db (email.getD "") ("mk_" ++ tok) cid
              (now + trialLength) now with
          | none =>
              cases hf : findByEmail db (email.getD "") with
              | none => simpa [register, hout, hins, hf] using h
              | some u => simpa [register, hout, hins, hf] using h
          | some db2 =>
              have hdb2 : db2 = db ++ [newAccount (email.getD "")
                  ("mk_" ++ tok) cid (now + trialLength) now] := by
                unfold insertUser at hins
                split at hins
                · cases hins
                · exact (Option.some.inj hins).symm
              have hr : (register db email tok now (.ok cid)).2 = db2 := by
                simp [register, hout, hins]
              rw [hr, hdb2]
              intro a ha
              rcases List.mem_append.1 ha with h3 | h3
              · exact h a h3
              · rw [List.mem_singleton] at h3
                subst h3
                exact Or.inl rfl

/-- verify preserves the workers invariant: its only write is the
downgrade to 1 worker. -/
theorem verify_workersOK (db : List Account) (apiKey : Option String)
    (now : Int) (subCall : SubRetrieve) (h : WorkersOK db) :
    WorkersOK (verify db apiKey now subCall).2 := by
  have hupd : ∀ k, WorkersOK (updateByApiKey db k "free" 1) := by
    intro k
    unfold updateByApiKey
    apply workersOK_map
    intro a ha
    dsimp only
    split
    · exact Or.inl rfl
    · exact h a ha
  cases hout : truthy apiKey with
  | false => simpa [verify, hout] using h
  | true =>
      cases hfind : findByApiKey db (apiKey.getD "") with
      | none => simpa [verify, hout, hfind] using h
      | some u =>
          cases hts : truthy u.stripe_subscription_id with
          | false =>
              have hv : (verify db apiKey now subCall).2 =
                  (verifyTail u db now).2 := by
                simp [verify, hout, hfind, hts]
              rw [hv, verifyTail_snd]
              exact h
          | true =>
              cases subCall with
              | err =>
                  have hv : (verify db apiKey now .err).2 =
                      (verifyTail u db now).2 := by
                    simp [verify, hout, hfind, hts]
                  rw [hv, verifyTail_snd]
                  exact h
              | ok st =>
                  by_cases hst : st = "active"
                  · have hv : (verify db apiKey now (.ok st)).2 =
                        (verifyTail u db now).2 := by
                      simp [verify, hout, hfind, hts, hst]
                    rw [hv, verifyTail_snd]
                    exact h
                  · have hv : (verify db apiKey now (.ok st)).2 =
                        updateByApiKey db (apiKey.getD "") "free" 1 := by
                      simp [verify, hout, hfind, hts, hst]
                    rw [hv]
                    exact hupd _

/-- webhook preserves the workers invariant: every branch writes 8 (pro)
or 1 (free) or leaves the table unchanged. -/
theorem webhook_workersOK (db : List Account) (ev : Option WebhookEvent)
    (h : WorkersOK db) : WorkersOK (webhook db ev).2 := by
  match ev with
  | none => exact h
  | some (.otherEvent t) => exact h
  | some (.checkoutCompleted mk sub) =>
      cases hmk : truthy mk with
      | false => simpa [webhook, hmk] using h
      | true =>
          have hv : (webhook db (some (.checkoutCompleted mk sub))).2 =
              db.map (fun a =>
                if a.api_key == mk.getD "" then applyCheckout sub a else a) := by
            simp [webhook, hmk]
          rw [hv]
          apply workersOK_map
          intro a ha
          split
          · exact Or.inr rfl
          · exact h a ha
  | some (.subscriptionUpdated st sid) =>
      by_cases h1 : st = "active"
      · have hv : (webhook db (some (.subscriptionUpdated st sid))).2 =
            db.map (fun a =>
              if a.stripe_subscription_id == some sid then
                { a with plan := "pro", max_workers := 8 }
              else a) := by
          simp [webhook, h1]
        rw [hv]
        apply workersOK_map
        intro a ha
        split
        · exact Or.inr rfl
        · exact h a ha
      · by_cases h2 : st = "canceled" ∨ st = "unpaid"
        · have hv : (webhook db (some (.subscriptionUpdated st sid))).2 =
              db.map (fun a =>
                if a.stripe_subscription_id == some sid then
                  { a with plan := "free", max_workers := 1 }
                else a) := by
            rcases h2 with rfl | rfl <;> simp [webhook, h1]
          rw [hv]
          apply workersOK_map
          intro a ha
          split
          · exact Or.inl rfl
          · exact h a ha
        · have h3 : ¬ st = "canceled" := fun hc => h2 (Or.inl hc)
          have h4 : ¬ st = "unpaid" := fun hc => h2 (Or.inr hc)
          simpa [webhook, h1, h3, h4] using h
  | some (.subscriptionDeleted sid) =>
      have hv : (webhook db (some (.subscriptionDeleted sid))).2 =
          db.map (fun a =>
            if a.stripe_subscription_id == some sid then applyDeleted a
            else a) := rfl
      rw [hv]
      apply workersOK_map
      intro a ha
      split
      · exact Or.inl rfl
      · exact h a ha

/-- Claim C9: newly created accounts get max_workers 1, and every handler
(register, verify, webhook) maps a table whose rows all have 1 or 8
workers to another such table. -/
theorem max_workers_invariant_preserved
    (db : List Account) (hdb : WorkersOK db) :
    (∀ e k cid expires now, (newAccount e k cid expires now).max_workers = 1) ∧
    (∀ email tok now sc, WorkersOK (register db email tok now sc).2) ∧
    (∀ apiKey now subCall, WorkersOK (verify db apiKey now subCall).2) ∧
    (∀ ev, WorkersOK (webhook db ev).2) :=
  ⟨fun _ _ _ _ _ => rfl,
   fun email tok now sc => register_workersOK db email tok now sc hdb,
   fun apiKey now subCall => verify_workersOK db apiKey now subCall hdb,
   fun ev => webhook_workersOK db ev hdb⟩

/-- Concrete instance of max_workers_invariant_preserved. -/
theorem max_workers_invariant_preserved_witness :
    (∀ e k cid expires now, (newAccount e k cid expires now).max_workers = 1) ∧
    (∀ email tok now sc, WorkersOK (register [c9row] email tok now sc).2) ∧
    (∀ apiKey now subCall, WorkersOK (verify [c9row] apiKey now subCall).2) ∧
    (∀ ev, WorkersOK (webhook [c9row] ev).2) :=
  max_workers_invariant_preserved [c9row]
    (by intro a ha
        rw [List.mem_singleton] at ha
        subst ha
        exact Or.inr rfl)
